import Mathlib

/-!
# digit-service-setup: the credential and permit HTTP handlers

A shallow embedding of `services/vc-service/src/app.js` and
`services/permit-service/src/app.js`.  Each Express handler becomes a function
from the parsed request body (plus every value the handler reads from its
surroundings: clock readings, random values, the environment variable, the
results of library calls) to the response it sends.
-/

namespace DigitServices

/-! ## JavaScript values -/

/-- A JavaScript string: its sequence of UTF-16 code units. -/
abbrev JStr := List Nat

/-- The code units of a source literal.  Every literal of the two services is
ASCII, where code units and characters coincide. -/
def js (s : String) : JStr := s.toList.map Char.toNat

/-- The values a handler sees: what `JSON.parse` produces, plus `undefined`.
A number is the rational a finite double denotes (`-0` is identified with `0`:
both are falsy).  An object is the list of its property definitions in
definition order, where a later definition of a name overrides an earlier one
(the reading `JSON.parse` gives to a repeated member and the evaluation rule of
an object literal with a spread). -/
inductive JVal where
  | undefined : JVal
  | null : JVal
  | bool (b : Bool) : JVal
  | num (x : ℚ) : JVal
  | str (s : JStr) : JVal
  | arr (items : List JVal) : JVal
  | obj (props : List (JStr × JVal)) : JVal

/-- Truthiness, as `||` tests it. -/
def truthy : JVal → Bool
  | .undefined => false
  | .null => false
  | .bool b => b
  | .num x => decide (x ≠ 0)
  | .str s => !s.isEmpty
  | .arr _ => true
  | .obj _ => true

/-- The JavaScript expression `a || b`. -/
def orElse (a b : JVal) : JVal := if truthy a then a else b

/-- The value the last definition of `k` gives, if `k` is defined. -/
def lookupLast (k : JStr) : List (JStr × JVal) → Option JVal
  | [] => none
  | (k', v) :: rest =>
    match lookupLast k rest with
    | some w => some w
    | none => if k' = k then some v else none

/-- Index keys `i, i+1, ...` paired with the elements of a list. -/
def indexed {α : Type} (f : α → JVal) (i : Nat) : List α → List (JStr × JVal)
  | [] => []
  | a :: rest => (js (toString i), f a) :: indexed f (i + 1) rest

/-- The own enumerable properties of a value, in order: the properties of an
object, the indexed elements of an array, the indexed code units of a string,
nothing for the other values.  This is what a spread `...v` copies. -/
def ownEntries : JVal → List (JStr × JVal)
  | .obj props => props
  | .arr items => indexed id 0 items
  | .str s => indexed (fun u => JVal.str [u]) 0 s
  | _ => []

/-- Whether `v` has an own enumerable property named `k`. -/
def hasOwn (v : JVal) (k : JStr) : Bool := (lookupLast k (ownEntries v)).isSome

/-- Property read `v.k` and `v?.k` for the names the handlers read
(`CredentialRequest`, `vcId`, `apiId`, ...), none of which a prototype defines:
the own property, else `undefined`.  On `undefined` and `null` this is the
optional read `?.`; the one plain read, `req.body.X`, is on the value
body-parser leaves in `req.body`, an object or an array. -/
def getProp (v : JVal) (k : JStr) : JVal :=
  match lookupLast k (ownEntries v) with
  | some w => w
  | none => .undefined

/-- A response: the status code and the value handed to `res.json`. -/
structure Response where
  status : Nat
  body : JVal

/-- What the handlers take from the JavaScript runtime and the libraries. -/
structure Runtime where
  /-- Result of `new Date().toISOString()` at a clock reading (ms since the epoch). -/
  toISOString : Nat → JStr
  /-- Result of `ToString` on a non-string value inside a template literal; `none` when it throws. -/
  toStringOther : JVal → Option JStr
  /-- Result of `QRCode.toDataURL`; `none` when the promise is rejected. -/
  toDataURL : JStr → Option JStr
  /-- Result of `Buffer.toString('base64')` on the bytes of `crypto.randomBytes`. -/
  base64 : List Nat → JStr
  /-- Result of `decodeURIComponent`, which the router applies to a route parameter; `none` when it throws. -/
  decodeURIComponent : JStr → Option JStr

/-- The `ResponseInfo` block every handler builds. -/
def responseInfo (body : JVal) (dflt : String) (ts : Nat) (status : String) : JVal :=
  .obj [ (js "apiId", orElse (getProp (getProp body (js "RequestInfo")) (js "apiId")) (.str (js dflt))),
         (js "ver", .str (js "1.0")),
         (js "ts", .num ts),
         (js "status", .str (js status)) ]

/-! ## vc-service -/

/-- Handler of `POST /vc/v1/_verify`.  `tTs` is the clock reading of
`Date.now()`, `tVerified` the one of `new Date()`. -/
def verify (rt : Runtime) (body : JVal) (tTs tVerified : Nat) : Response :=
  let verificationRequest := getProp body (js "VerificationRequest")
  { status := 200
    body := .obj [
      (js "ResponseInfo", responseInfo body "vc-verify" tTs "successful"),
      (js "VerificationResult", .obj [
        (js "isValid", .bool true),
        (js "vcId", getProp verificationRequest (js "vcId")),
        (js "verifiedAt", .str (rt.toISOString tVerified)),
        (js "status", .str (js "VALID")),
        (js "verificationMethod", .str (js "cryptographic_proof")) ]) ] }

/-- Decimal digits of a non-negative integer, as a template literal prints it
(clock readings and years are below 10^21, where JavaScript prints plain digits). -/
def decimal (n : Nat) : JStr := js (toString n)

/-- Result of `ToString` inside a template literal: a string is itself, any
other value is converted by the runtime. -/
def templateStr (rt : Runtime) : JVal → Option JStr
  | .str s => some s
  | v => rt.toStringOther v

/-- The issuer identity written into every credential. -/
def issuerDid : JStr := js "did:key:z6MkhaXgBZDvotDkL5257faiztiGiC2QtKLGpbnnEGta2doK"

/-- The verification method written into every proof. -/
def issuerKeyRef : JStr :=
  js "did:key:z6MkhaXgBZDvotDkL5257faiztiGiC2QtKLGpbnnEGta2doK#z6MkhaXgBZDvotDkL5257faiztiGiC2QtKLGpbnnEGta2doK"

/-- The credential identifier built from the template string
`vc- Date.now() - Math.random().toString(36).substr(2, 9)`; `rand36` is the
result of the random part. -/
def mkVcId (tId : Nat) (rand36 : JStr) : JStr :=
  js "vc-" ++ decimal tId ++ js "-" ++ rand36

/-- The `proof` block of an issued credential; `randomBytes` is the result of
`crypto.randomBytes(32)`. -/
def mkProof (rt : Runtime) (tCreated : Nat) (randomBytes : List Nat) : JVal :=
  .obj [ (js "type", .str (js "Ed25519Signature2020")),
         (js "created", .str (rt.toISOString tCreated)),
         (js "verificationMethod", .str issuerKeyRef),
         (js "proofPurpose", .str (js "assertionMethod")),
         (js "proofValue", .str (rt.base64 randomBytes)) ]

/-- The `credentialSubject` block: the holder id (or the default), then the
spread of the request's `credentialSubject`. -/
def mkCredentialSubject (credentialRequest : JVal) : JVal :=
  .obj ([ (js "id", orElse (getProp credentialRequest (js "holderDid")) (.str (js "did:example:holder"))) ]
        ++ ownEntries (getProp credentialRequest (js "credentialSubject")))

/-- Handler of `POST /vc/v1/_issue`.  The clock is read four times, in this
order: `tId` for the identifier, `tIssued` for `issuanceDate`, `tCreated` for
`proof.created`, `tTs` for `ResponseInfo.ts`. -/
def issue (rt : Runtime) (body : JVal) (tId : Nat) (rand36 : JStr)
    (tIssued tCreated : Nat) (randomBytes : List Nat) (tTs : Nat) : Response :=
  let credentialRequest := getProp body (js "CredentialRequest")
  let vcId := mkVcId tId rand36
  let credential := JVal.obj [
    (js "@context", .arr [ .str (js "https://www.w3.org/2018/credentials/v1"),
                           .str (js "https://digit.org/credentials/permit/v1") ]),
    (js "id", .str vcId),
    (js "type", .arr [ .str (js "VerifiableCredential"), .str (js "PermitCredential") ]),
    (js "issuer", .str issuerDid),
    (js "issuanceDate", .str (rt.toISOString tIssued)),
    (js "credentialSubject", mkCredentialSubject credentialRequest),
    (js "proof", mkProof rt tCreated randomBytes) ]
  { status := 200
    body := .obj [
      (js "ResponseInfo", responseInfo body "vc-issue" tTs "successful"),
      (js "VerifiableCredential", credential) ] }

/-- The base of the verification URL: `process.env.QR_BASE_URL || default`.
An unset variable is `none`; an empty one is falsy. -/
def qrBaseUrl (envBase : Option JStr) : JStr :=
  match envBase with
  | some s => if s.isEmpty then js "http://localhost:8080/vc/verify" else s
  | none => js "http://localhost:8080/vc/verify"

/-- The template string `verifyUrl` of the QR handler; `none` when converting
the identifier to a string throws. -/
def verifyUrl (rt : Runtime) (envBase : Option JStr) (body : JVal) : Option JStr :=
  let qrRequest := getProp body (js "QRRequest")
  match templateStr rt (orElse (getProp qrRequest (js "vcId")) (.str (js "sample-vc-id"))) with
  | some idText => some (qrBaseUrl envBase ++ js "/" ++ idText)
  | none => none

/-- Handler of `POST /vc/v1/_generateQR`.  `none`: the handler throws before the
`try` block and sends nothing.  On the successful path the clock is read twice,
`tTs` for `ResponseInfo.ts` and then `tExpiry` for `expiryTime`; the `catch`
path reads it once (`tTs`). -/
def generateQR (rt : Runtime) (envBase : Option JStr) (body : JVal) (tTs tExpiry : Nat) :
    Option Response :=
  match verifyUrl rt envBase body with
  | none => none
  | some url =>
    match rt.toDataURL url with
    | some qrCodeImage =>
      some { status := 200
             body := .obj [
               (js "ResponseInfo", responseInfo body "vc-qr-generate" tTs "successful"),
               (js "QRCode", .obj [
                 (js "qrCodeData", .str url),
                 (js "qrCodeImage", .str qrCodeImage),
                 (js "expiryTime", .num ((tExpiry : ℚ) + 24 * 60 * 60 * 1000)) ]) ] }
    | none =>
      some { status := 500
             body := .obj [
               (js "ResponseInfo", responseInfo body "vc-qr-generate" tTs "error"),
               (js "error", .str (js "Failed to generate QR code")) ] }

/-- Handler of `GET /vc/verify/:vcId`, the endpoint a scanned code leads to.
`vcId` is the route parameter, `tVerified` the clock reading. -/
def scanVerify (rt : Runtime) (vcId : JStr) (tVerified : Nat) : Response :=
  { status := 200
    body := .obj [
      (js "vcId", .str vcId),
      (js "status", .str (js "VALID")),
      (js "verifiedAt", .str (rt.toISOString tVerified)),
      (js "permitDetails", .obj [
        (js "permitType", .str (js "FOOD_VENDOR")),
        (js "holderName", .str (js "John Doe")),
        (js "businessName", .str (js "Johns Food Stall")),
        (js "expiryDate", .str (js "2025-01-15")) ]) ] }

/-- The remainder of `l` after the prefix `p`, if `l` starts with `p`. -/
def stripPrefix : JStr → JStr → Option JStr
  | [], l => some l
  | _ :: _, [] => none
  | a :: p, b :: l => if a = b then stripPrefix p l else none

/-- The request target a client sends for an absolute `http` or `https` URL:
what follows the scheme and the (non-empty) authority, without the fragment,
with a slash in front when the path is empty. -/
def requestTarget (url : JStr) : Option JStr :=
  let afterScheme :=
    match stripPrefix (js "http://") url with
    | some rest => some rest
    | none => stripPrefix (js "https://") url
  match afterScheme with
  | none => none
  | some rest =>
    let authority := rest.takeWhile (fun u => u ≠ 47 ∧ u ≠ 63 ∧ u ≠ 35)
    let tail := (rest.dropWhile (fun u => u ≠ 47 ∧ u ≠ 63 ∧ u ≠ 35)).takeWhile (fun u => u ≠ 35)
    if authority = [] then none
    else some (if tail.head? = some 47 then tail else 47 :: tail)

/-- ASCII lower case of a code unit. -/
def lower (u : Nat) : Nat := if 65 ≤ u ∧ u ≤ 90 then u + 32 else u

/-- The remainder of `l` after the prefix `p`, letters compared without regard
to case, as the router compares a path with the literal part of a route. -/
def stripPrefixCI : JStr → JStr → Option JStr
  | [], l => some l
  | _ :: _, [] => none
  | a :: p, b :: l => if lower a = lower b then stripPrefixCI p l else none

/-- The route parameter that the route `/vc/verify/:vcId` extracts from a
request target, `none` when the route does not match: the path (the target up
to a query or fragment mark) must be `/vc/verify/` in any letter case followed
by one non-empty segment, after which a single slash is tolerated; the segment
is percent-decoded by the router with the runtime's `decodeURIComponent`. -/
def routeParam (rt : Runtime) (target : JStr) : Option JStr :=
  let path := target.takeWhile (fun u => u ≠ 63 ∧ u ≠ 35)
  match stripPrefixCI (js "/vc/verify/") path with
  | none => none
  | some rest =>
    let seg := if rest.getLast? = some 47 then rest.dropLast else rest
    if seg = [] ∨ 47 ∈ seg then none else rt.decodeURIComponent seg

/-- Resolving a scanned reference: the client requests the URL and the router
hands the request to the handler of `GET /vc/verify/:vcId` when that route
matches; `none` when it does not, so that this handler sends nothing. -/
def resolveScan (rt : Runtime) (url : JStr) (tVerified : Nat) : Option Response :=
  match requestTarget url with
  | none => none
  | some target =>
    match routeParam rt target with
    | none => none
    | some vcId => some (scanVerify rt vcId tVerified)

/-! ## permit-service -/

/-- The method `padStart(6, '0')` on a string. -/
def padStart6 (s : JStr) : JStr := List.replicate (6 - s.length) 48 ++ s

/-- Handler of `POST /permit/v1/_create`.  `tTs`, `tCreated`, `tModified` are
the three readings of `Date.now()` in evaluation order, `uuid` the result of
`uuidv4()`, `year` the result of `new Date().getFullYear()`, `rnd` the result of
`Math.floor(Math.random() * 100000)`. -/
def createPermit (body : JVal) (tTs : Nat) (uuid : JStr) (year rnd : Nat)
    (tCreated tModified : Nat) : Response :=
  let permitApplication := getProp body (js "PermitApplication")
  { status := 200
    body := .obj [
      (js "ResponseInfo", responseInfo body "permit-create" tTs "successful"),
      (js "PermitApplications", .arr [
        .obj ([ (js "id", .str uuid),
                (js "applicationNumber",
                  .str (js "PA-" ++ decimal year ++ js "-" ++ padStart6 (decimal rnd))),
                (js "tenantId", orElse (getProp permitApplication (js "tenantId")) (.str (js "pg.citya"))),
                (js "status", .str (js "DRAFT")),
                (js "createdTime", .num tCreated),
                (js "lastModifiedTime", .num tModified) ]
              ++ ownEntries permitApplication) ]) ] }


/-! ## Scenarios used to state the properties -/

/-- The document `cred` with its `credentialSubject` replaced by `newSubject`:
any change made to the subject claims after issuance. -/
def withSubject (cred newSubject : JVal) : JVal :=
  .obj (ownEntries cred ++ [(js "credentialSubject", newSubject)])

/-- A verification request that presents the document `cred`: its id as
`vcId`, together with the document itself. -/
def verificationRequestFor (requestInfo cred : JVal) : JVal :=
  .obj [ (js "RequestInfo", requestInfo),
         (js "VerificationRequest", .obj [ (js "vcId", getProp cred (js "id")),
                                           (js "credential", cred) ]) ]

/-- The instant 2026-01-01T00:00:00.000Z in milliseconds since the epoch, used
as the clock reading of the concrete runs below. -/
def sampleNow : Nat := 1767225600000

/-- The end of the day 2025-01-15 (UTC) in milliseconds since the epoch. -/
def endOfExpiryDate : Nat := 1736985600000

/-- A runtime for the concrete runs below, exact on the inputs they use: the
clock reading `sampleNow`, thirty-two zero bytes, identifiers free of percent
signs.  The image text is a placeholder for the rendered code. -/
def sampleRuntime : Runtime where
  toISOString := fun _ => js "2026-01-01T00:00:00.000Z"
  toStringOther := fun v =>
    match v with
    | .bool true => some (js "true")
    | .bool false => some (js "false")
    | .null => some (js "null")
    | _ => none
  toDataURL := fun url => some (js "data:image/png;base64," ++ url)
  base64 := fun _ => js "AAAAAAAAAAAAAAAAAAAAAAAAAAAAAAAAAAAAAAAAAAA="
  decodeURIComponent := fun s => if 37 ∈ s then none else some s

/-- Thirty-two zero bytes, a possible result of `crypto.randomBytes(32)`. -/
def zeroBytes : List Nat := List.replicate 32 0

/-- An issuance request for a food-vendor permit. -/
def sampleIssueBody : JVal :=
  .obj [ (js "CredentialRequest", .obj [
           (js "holderDid", .str (js "did:example:alice")),
           (js "credentialSubject", .obj [
             (js "permitType", .str (js "FOOD_VENDOR")),
             (js "validUntil", .str (js "2025-01-15")) ]) ]) ]

/-- An issuance request whose subject claims are empty. -/
def emptyClaimsBody : JVal :=
  .obj [ (js "CredentialRequest", .obj [ (js "credentialSubject", .obj []) ]) ]

/-- An issuance request whose subject claims use the reserved names. -/
def reservedClaimsBody : JVal :=
  .obj [ (js "CredentialRequest", .obj [
           (js "holderDid", .str (js "did:example:alice")),
           (js "credentialSubject", .obj [
             (js "id", .str (js "did:example:mallory")),
             (js "proof", .str (js "forged")),
             (js "issuer", .str (js "did:example:mallory")),
             (js "issuanceDate", .str (js "1999-01-01")) ]) ]) ]

/-- The credential issued for `sampleIssueBody` at `sampleNow`. -/
def sampleCredential : JVal :=
  getProp (issue sampleRuntime sampleIssueBody sampleNow (js "k3j9x0q2a") sampleNow sampleNow
    zeroBytes sampleNow).body (js "VerifiableCredential")

/-- A QR request for the identifier `id`. -/
def qrBodyFor (id : JStr) : JVal :=
  .obj [ (js "QRRequest", .obj [ (js "vcId", .str id) ]) ]

/-- A permit application that supplies the server-side fields itself. -/
def overridingPermitBody : JVal :=
  .obj [ (js "PermitApplication", .obj [
           (js "id", .str (js "my-id")),
           (js "status", .str (js "APPROVED")),
           (js "tenantId", .str (js "pg.cityb")),
           (js "createdTime", .num 1),
           (js "applicantName", .str (js "John Doe")) ]) ]

/-! ## Lemmas on property lookup -/

theorem lookupLast_append (k : JStr) (a b : List (JStr × JVal)) :
    lookupLast k (a ++ b) =
      match lookupLast k b with
      | some w => some w
      | none => lookupLast k a := by
  induction a with
  | nil => cases h : lookupLast k b <;> simp [lookupLast, h]
  | cons p rest ih =>
    obtain ⟨k', v⟩ := p
    cases h : lookupLast k b with
    | some w => simp [lookupLast, ih, h]
    | none => simp [lookupLast, ih, h]

/-- A spread at the end of an object literal overrides what stands before it,
name by name. -/
theorem getProp_spread (a : List (JStr × JVal)) (v : JVal) (k : JStr) :
    getProp (.obj (a ++ ownEntries v)) k =
      if hasOwn v k then getProp v k else getProp (.obj a) k := by
  have hobj : ∀ p : List (JStr × JVal), ownEntries (.obj p) = p := fun _ => rfl
  simp only [getProp, hasOwn, hobj, lookupLast_append]
  cases h : lookupLast k (ownEntries v) <;> simp

theorem getProp_of_not_hasOwn (v : JVal) (k : JStr) (h : hasOwn v k = false) :
    getProp v k = .undefined := by
  simp only [hasOwn] at h
  simp only [getProp]
  cases h' : lookupLast k (ownEntries v) with
  | none => rfl
  | some w => simp [h'] at h

theorem hasOwn_spread (a : List (JStr × JVal)) (v : JVal) (k : JStr) :
    hasOwn (.obj (a ++ ownEntries v)) k = (hasOwn v k || hasOwn (.obj a) k) := by
  have hobj : ∀ p : List (JStr × JVal), ownEntries (.obj p) = p := fun _ => rfl
  simp only [hasOwn, hobj, lookupLast_append]
  cases h : lookupLast k (ownEntries v) <;> simp

theorem str_ne_of_ne {a b : JStr} (h : a ≠ b) : JVal.str a ≠ JVal.str b :=
  fun e => h (JVal.str.inj e)

theorem stripPrefix_append (p l : JStr) : stripPrefix p (p ++ l) = some l := by
  induction p with
  | nil => cases l <;> rfl
  | cons a p ih => simp [stripPrefix, ih]

theorem stripPrefixCI_append (p q l : JStr) (h : q.map lower = p.map lower) :
    stripPrefixCI p (q ++ l) = some l := by
  induction p generalizing q with
  | nil =>
    cases q with
    | nil => cases l <;> rfl
    | cons b q => simp at h
  | cons a p ih =>
    cases q with
    | nil => simp at h
    | cons b q =>
      simp only [List.map_cons, List.cons.injEq] at h
      simp [stripPrefixCI, h.1, ih q h.2]

theorem lower_eq_slash {u : Nat} (h : lower u = 47) : u = 47 := by
  unfold lower at h
  split at h <;> omega

/-- A mount path that reads `/vc/verify` in some letter case starts with a
slash and has neither a question mark nor a hash. -/
theorem mount_shape (mount : JStr) (hmount : mount.map lower = js "/vc/verify") :
    (∃ ms, mount = 47 :: ms) ∧ ∀ u ∈ mount, u ≠ 63 ∧ u ≠ 35 := by
  constructor
  · cases mount with
    | nil => exact absurd hmount (by decide)
    | cons m ms =>
      have hm : lower m = 47 := by
        have h := congrArg List.head? hmount
        simpa [js] using h
      exact ⟨ms, by rw [lower_eq_slash hm]⟩
  · intro u hu
    have hl : lower u ∈ js "/vc/verify" := hmount ▸ List.mem_map_of_mem lower hu
    constructor
    · intro e
      subst e
      exact absurd hl (by decide)
    · intro e
      subst e
      exact absurd hl (by decide)

/-- The request target of a reference built on a base URL whose path is the
mount path. -/
theorem requestTarget_mounted (scheme authority mount t : JStr)
    (hscheme : scheme = js "http://" ∨ scheme = js "https://")
    (hauthne : authority ≠ [])
    (hauth : ∀ u ∈ authority, u ≠ 47 ∧ u ≠ 63 ∧ u ≠ 35)
    (hmount : mount.map lower = js "/vc/verify")
    (ht : ∀ u ∈ t, u ≠ 35) :
    requestTarget (scheme ++ (authority ++ mount) ++ t) = some (mount ++ t) := by
  obtain ⟨⟨ms, hms⟩, hmu⟩ := mount_shape mount hmount
  have hauth' : ∀ u ∈ authority, (decide (u ≠ 47 ∧ u ≠ 63 ∧ u ≠ 35)) = true := by
    intro u hu
    have := hauth u hu
    simp [this.1, this.2.1, this.2.2]
  have hwhole : List.takeWhile (fun u => decide (u ≠ 35)) (mount ++ t) = mount ++ t := by
    rw [List.takeWhile_eq_self_iff]
    intro x hx
    rcases List.mem_append.mp hx with h | h
    · simp [(hmu x h).2]
    · simp [ht x h]
  have hassoc : scheme ++ (authority ++ mount) ++ t = scheme ++ (authority ++ (mount ++ t)) := by
    simp [List.append_assoc]
  have hafter : (match stripPrefix (js "http://") (scheme ++ (authority ++ (mount ++ t))) with
      | some rest => some rest
      | none => stripPrefix (js "https://") (scheme ++ (authority ++ (mount ++ t))))
      = some (authority ++ (mount ++ t)) := by
    rcases hscheme with h | h
    · subst h
      rw [stripPrefix_append]
    · subst h
      have hno : stripPrefix (js "http://") (js "https://" ++ (authority ++ (mount ++ t))) = none :=
        rfl
      rw [hno, stripPrefix_append]
  have htakeA : List.takeWhile (fun u => decide (u ≠ 47 ∧ u ≠ 63 ∧ u ≠ 35))
      (authority ++ (mount ++ t)) = authority := by
    rw [List.takeWhile_append_of_pos hauth', hms]
    simp
  have hdropA : List.dropWhile (fun u => decide (u ≠ 47 ∧ u ≠ 63 ∧ u ≠ 35))
      (authority ++ (mount ++ t)) = mount ++ t := by
    rw [List.dropWhile_append_of_pos hauth', hms]
    simp
  simp only [requestTarget, hassoc, hafter, htakeA, hdropA, hwhole]
  simp [hauthne, hms]

/-- An identifier that is one plain path segment comes back from the route
unchanged, up to percent-decoding. -/
theorem routeParam_segment (rt : Runtime) (mount id : JStr)
    (hmount : mount.map lower = js "/vc/verify") (hne : id ≠ [])
    (hseg : ∀ u ∈ id, u ≠ 47 ∧ u ≠ 63 ∧ u ≠ 35) :
    routeParam rt (mount ++ js "/" ++ id) = rt.decodeURIComponent id := by
  obtain ⟨_, hmu⟩ := mount_shape mount hmount
  have htake : List.takeWhile (fun u => decide (u ≠ 63 ∧ u ≠ 35)) (mount ++ js "/" ++ id)
      = mount ++ js "/" ++ id := by
    rw [List.takeWhile_eq_self_iff]
    intro x hx
    rcases List.mem_append.mp hx with h | h
    · rcases List.mem_append.mp h with h | h
      · simp [(hmu x h).1, (hmu x h).2]
      · have hx47 : x = 47 := by simpa [js] using h
        simp [hx47]
    · have := hseg x h
      simp [this.2.1, this.2.2]
  have hlit : (mount ++ js "/").map lower = (js "/vc/verify/").map lower := by
    rw [List.map_append, hmount]
    decide
  have hslash : (47 : Nat) ∉ id := fun hmem => (hseg 47 hmem).1 rfl
  have hlast : id.getLast? ≠ some 47 := fun h => hslash (List.mem_of_getLast?_eq_some h)
  simp only [routeParam, htake, stripPrefixCI_append _ _ id hlit]
  simp [hlast, hne, hslash]

/-! ## Theorems -/

/-- C2: the verify handler answers every request body at every clock reading
with status 200 and a VerificationResult whose isValid is true, whose status is
VALID and whose vcId is the vcId of the request's VerificationRequest
(undefined when the request has none). -/
theorem verify_always_valid (rt : Runtime) (body : JVal) (tTs tVerified : Nat) :
    (verify rt body tTs tVerified).status = 200 ∧
    getProp (getProp (verify rt body tTs tVerified).body (js "VerificationResult")) (js "isValid")
      = .bool true ∧
    getProp (getProp (verify rt body tTs tVerified).body (js "VerificationResult")) (js "status")
      = .str (js "VALID") ∧
    getProp (getProp (verify rt body tTs tVerified).body (js "VerificationResult")) (js "vcId")
      = getProp (getProp body (js "VerificationRequest")) (js "vcId") :=
  ⟨rfl, rfl, rfl, rfl⟩

/-- C7: two runs of the issue handler whose proof is created at the same clock
reading, on arbitrary bodies and arbitrary random bytes, produce proofs that
agree on type (Ed25519Signature2020), created, verificationMethod and
proofPurpose; proofValue is the encoding of the random bytes of each run. -/
theorem issue_proof_deterministic_fields (rt : Runtime) (tCreated : Nat)
    (body₁ body₂ : JVal) (tId₁ tId₂ : Nat) (rand₁ rand₂ : JStr) (tIssued₁ tIssued₂ : Nat)
    (bytes₁ bytes₂ : List Nat) (tTs₁ tTs₂ : Nat) :
    let proof₁ := getProp (getProp (issue rt body₁ tId₁ rand₁ tIssued₁ tCreated bytes₁ tTs₁).body
      (js "VerifiableCredential")) (js "proof")
    let proof₂ := getProp (getProp (issue rt body₂ tId₂ rand₂ tIssued₂ tCreated bytes₂ tTs₂).body
      (js "VerifiableCredential")) (js "proof")
    getProp proof₁ (js "type") = .str (js "Ed25519Signature2020") ∧
    getProp proof₁ (js "type") = getProp proof₂ (js "type") ∧
    getProp proof₁ (js "created") = getProp proof₂ (js "created") ∧
    getProp proof₁ (js "verificationMethod") = getProp proof₂ (js "verificationMethod") ∧
    getProp proof₁ (js "proofPurpose") = getProp proof₂ (js "proofPurpose") ∧
    getProp proof₁ (js "proofValue") = .str (rt.base64 bytes₁) ∧
    getProp proof₂ (js "proofValue") = .str (rt.base64 bytes₂) :=
  ⟨rfl, rfl, rfl, rfl, rfl, rfl, rfl⟩

/-- C8: for a verification request whose VerificationRequest.vcId is the
string id, the scan endpoint called with route parameter id returns the same
status and the same vcId as the VerificationResult of the verify handler. -/
theorem scan_agrees_with_verify (rt : Runtime) (id : JStr) (body : JVal)
    (tTs tVerified tScan : Nat)
    (h : getProp (getProp body (js "VerificationRequest")) (js "vcId") = .str id) :
    getProp (scanVerify rt id tScan).body (js "status")
      = getProp (getProp (verify rt body tTs tVerified).body (js "VerificationResult")) (js "status") ∧
    getProp (scanVerify rt id tScan).body (js "vcId")
      = getProp (getProp (verify rt body tTs tVerified).body (js "VerificationResult")) (js "vcId") := by
  refine ⟨rfl, ?_⟩
  show JVal.str id = getProp (getProp body (js "VerificationRequest")) (js "vcId")
  exact h.symm

/-- Witness of C8: the scan of the issued sample credential and its direct
verification report the same status and the same vcId. -/
theorem scan_agrees_with_verify_witness :
    getProp (getProp (verificationRequestFor .undefined sampleCredential)
        (js "VerificationRequest")) (js "vcId") = .str (js "vc-1767225600000-k3j9x0q2a") ∧
    getProp (scanVerify sampleRuntime (js "vc-1767225600000-k3j9x0q2a") sampleNow).body (js "status")
      = getProp (getProp (verify sampleRuntime
          (verificationRequestFor .undefined sampleCredential) sampleNow sampleNow).body
          (js "VerificationResult")) (js "status") ∧
    getProp (scanVerify sampleRuntime (js "vc-1767225600000-k3j9x0q2a") sampleNow).body (js "vcId")
      = getProp (getProp (verify sampleRuntime
          (verificationRequestFor .undefined sampleCredential) sampleNow sampleNow).body
          (js "VerificationResult")) (js "vcId") :=
  ⟨rfl, scan_agrees_with_verify sampleRuntime (js "vc-1767225600000-k3j9x0q2a")
    (verificationRequestFor .undefined sampleCredential) sampleNow sampleNow sampleNow rfl⟩

/-- C9: in the issued credential, credentialSubject carries every property of
the request's credentialSubject with the request's value; its id is the
request's credentialSubject.id when that exists, otherwise holderDid when that
is truthy, otherwise the default did:example:holder; the credential's own id,
issuer, type and proof do not depend on the request's credentialSubject. -/
theorem issue_credentialSubject (rt : Runtime) (body : JVal) (tId : Nat) (rand36 : JStr)
    (tIssued tCreated : Nat) (randomBytes : List Nat) (tTs : Nat) :
    let request := getProp body (js "CredentialRequest")
    let claims := getProp request (js "credentialSubject")
    let cred := getProp (issue rt body tId rand36 tIssued tCreated randomBytes tTs).body
      (js "VerifiableCredential")
    let subject := getProp cred (js "credentialSubject")
    (∀ k, hasOwn claims k = true → hasOwn subject k = true ∧ getProp subject k = getProp claims k) ∧
    (hasOwn claims (js "id") = false → truthy (getProp request (js "holderDid")) = true →
      getProp subject (js "id") = getProp request (js "holderDid")) ∧
    (hasOwn claims (js "id") = false → truthy (getProp request (js "holderDid")) = false →
      getProp subject (js "id") = .str (js "did:example:holder")) ∧
    getProp cred (js "id") = .str (mkVcId tId rand36) ∧
    getProp cred (js "issuer") = .str issuerDid ∧
    getProp cred (js "type") = .arr [.str (js "VerifiableCredential"), .str (js "PermitCredential")] ∧
    getProp cred (js "proof") = mkProof rt tCreated randomBytes := by
  intro request claims cred subject
  have hsub : subject = .obj ([ (js "id", orElse (getProp request (js "holderDid"))
      (.str (js "did:example:holder"))) ] ++ ownEntries claims) := rfl
  refine ⟨?_, ?_, ?_, rfl, rfl, rfl, rfl⟩
  · intro k hk
    rw [hsub, hasOwn_spread, getProp_spread, hk]
    simp
  · intro hid hh
    rw [hsub, getProp_spread, hid]
    show orElse (getProp request (js "holderDid")) (.str (js "did:example:holder")) = _
    simp [orElse, hh]
  · intro hid hh
    rw [hsub, getProp_spread, hid]
    show orElse (getProp request (js "holderDid")) (.str (js "did:example:holder")) = _
    simp [orElse, hh]

/-- Witness of C9: the three ways the subject id is decided, on concrete
requests (claims with their own id; a holderDid and no id in the claims;
neither), and a claim carried over unchanged. -/
theorem issue_credentialSubject_witness :
    getProp (getProp sampleCredential (js "credentialSubject")) (js "permitType")
      = .str (js "FOOD_VENDOR") ∧
    getProp (getProp sampleCredential (js "credentialSubject")) (js "id")
      = .str (js "did:example:alice") ∧
    getProp (getProp (getProp (issue sampleRuntime reservedClaimsBody sampleNow (js "k3j9x0q2a")
        sampleNow sampleNow zeroBytes sampleNow).body (js "VerifiableCredential"))
        (js "credentialSubject")) (js "id") = .str (js "did:example:mallory") ∧
    getProp (getProp (getProp (issue sampleRuntime emptyClaimsBody sampleNow (js "k3j9x0q2a")
        sampleNow sampleNow zeroBytes sampleNow).body (js "VerifiableCredential"))
        (js "credentialSubject")) (js "id") = .str (js "did:example:holder") :=
  ⟨((issue_credentialSubject sampleRuntime sampleIssueBody sampleNow (js "k3j9x0q2a")
      sampleNow sampleNow zeroBytes sampleNow).1 (js "permitType") rfl).2,
   (issue_credentialSubject sampleRuntime sampleIssueBody sampleNow (js "k3j9x0q2a")
      sampleNow sampleNow zeroBytes sampleNow).2.1 rfl rfl,
   ((issue_credentialSubject sampleRuntime reservedClaimsBody sampleNow (js "k3j9x0q2a")
      sampleNow sampleNow zeroBytes sampleNow).1 (js "id") rfl).2,
   (issue_credentialSubject sampleRuntime emptyClaimsBody sampleNow (js "k3j9x0q2a")
      sampleNow sampleNow zeroBytes sampleNow).2.2.1 rfl rfl⟩

/-- C10: the create handler answers with exactly one permit record; every
property of the request's PermitApplication appears in it with the request's
value (so supplied id, applicationNumber, tenantId, status, createdTime and
lastModifiedTime replace the generated ones), and for each of those names the
request leaves out the record has the generated value: status DRAFT, tenantId
pg.citya, createdTime and lastModifiedTime from the clock. -/
theorem createPermit_record (body : JVal) (tTs : Nat) (uuid : JStr) (year rnd : Nat)
    (tCreated tModified : Nat) :
    let application := getProp body (js "PermitApplication")
    ∃ record,
      getProp (createPermit body tTs uuid year rnd tCreated tModified).body (js "PermitApplications")
        = .arr [record] ∧
      (∀ k, hasOwn application k = true →
        hasOwn record k = true ∧ getProp record k = getProp application k) ∧
      (hasOwn application (js "id") = false → getProp record (js "id") = .str uuid) ∧
      (hasOwn application (js "applicationNumber") = false →
        getProp record (js "applicationNumber")
          = .str (js "PA-" ++ decimal year ++ js "-" ++ padStart6 (decimal rnd))) ∧
      (hasOwn application (js "tenantId") = false →
        getProp record (js "tenantId") = .str (js "pg.citya")) ∧
      (hasOwn application (js "status") = false → getProp record (js "status") = .str (js "DRAFT")) ∧
      (hasOwn application (js "createdTime") = false →
        getProp record (js "createdTime") = .num tCreated) ∧
      (hasOwn application (js "lastModifiedTime") = false →
        getProp record (js "lastModifiedTime") = .num tModified) := by
  intro application
  refine ⟨_, rfl, ?_, ?_, ?_, ?_, ?_, ?_, ?_⟩
  · intro k hk
    rw [hasOwn_spread, getProp_spread, hk]
    simp
  · intro h
    rw [getProp_spread, h]
    rfl
  · intro h
    rw [getProp_spread, h]
    rfl
  · intro h
    rw [getProp_spread, h, getProp_of_not_hasOwn application _ h]
    rfl
  · intro h
    rw [getProp_spread, h]
    rfl
  · intro h
    rw [getProp_spread, h]
    rfl
  · intro h
    rw [getProp_spread, h]
    rfl

/-- Witness of C10: an application that supplies id, status, tenantId and
createdTime gets them back, and a request without PermitApplication gets the
generated values. -/
theorem createPermit_record_witness :
    (∃ record,
      getProp (createPermit overridingPermitBody sampleNow (js "0b0e7a3c") 2026 42 sampleNow
        sampleNow).body (js "PermitApplications") = .arr [record] ∧
      getProp record (js "status") = .str (js "APPROVED") ∧
      getProp record (js "applicationNumber") = .str (js "PA-2026-000042") ∧
      getProp record (js "lastModifiedTime") = .num sampleNow) ∧
    (∃ record,
      getProp (createPermit (.obj []) sampleNow (js "0b0e7a3c") 2026 42 sampleNow
        sampleNow).body (js "PermitApplications") = .arr [record] ∧
      getProp record (js "id") = .str (js "0b0e7a3c") ∧
      getProp record (js "tenantId") = .str (js "pg.citya") ∧
      getProp record (js "status") = .str (js "DRAFT") ∧
      getProp record (js "createdTime") = .num sampleNow) := by
  obtain ⟨r₁, h₁, hall₁, _, hnum₁, _, _, _, hmod₁⟩ :=
    createPermit_record overridingPermitBody sampleNow (js "0b0e7a3c") 2026 42 sampleNow sampleNow
  obtain ⟨r₂, h₂, _, hid₂, _, hten₂, hst₂, hcr₂, _⟩ :=
    createPermit_record (.obj []) sampleNow (js "0b0e7a3c") 2026 42 sampleNow sampleNow
  exact ⟨⟨r₁, h₁, (hall₁ (js "status") rfl).2, hnum₁ rfl, hmod₁ rfl⟩,
    ⟨r₂, h₂, hid₂ rfl, hten₂ rfl, hst₂ rfl, hcr₂ rfl⟩⟩

/-- C6: in every successful (status 200) response of the QR handler, with the
clock read as tTs for ResponseInfo.ts and then as tExpiry for the expiry,
tTs ≤ tExpiry, QRCode.expiryTime is tExpiry + 86400000 and is strictly greater
than the issue time tTs. -/
theorem generateQR_expiry (rt : Runtime) (envBase : Option JStr) (body : JVal)
    (tTs tExpiry : Nat) (r : Response)
    (h : generateQR rt envBase body tTs tExpiry = some r) (hs : r.status = 200)
    (ht : tTs ≤ tExpiry) :
    getProp (getProp r.body (js "QRCode")) (js "expiryTime")
      = .num ((tExpiry + 86400000 : Nat) : ℚ) ∧
    getProp (getProp r.body (js "ResponseInfo")) (js "ts") = .num (tTs : ℚ) ∧
    tTs < tExpiry + 86400000 := by
  unfold generateQR at h
  split at h
  · cases h
  · split at h
    · cases h
      refine ⟨?_, rfl, by omega⟩
      show JVal.num ((tExpiry : ℚ) + 24 * 60 * 60 * 1000) = _
      congr 1
      push_cast
      norm_num
    · cases h
      simp at hs

/-- Witness of C6: a QR request handled at sampleNow, the expiry read five
milliseconds after the timestamp. -/
theorem generateQR_expiry_witness :
    ∃ r, generateQR sampleRuntime none (qrBodyFor (js "vc-1")) sampleNow (sampleNow + 5) = some r ∧
      r.status = 200 ∧ sampleNow ≤ sampleNow + 5 ∧
      getProp (getProp r.body (js "QRCode")) (js "expiryTime")
        = .num ((sampleNow + 5 + 86400000 : Nat) : ℚ) ∧
      getProp (getProp r.body (js "ResponseInfo")) (js "ts") = .num (sampleNow : ℚ) ∧
      sampleNow < sampleNow + 5 + 86400000 :=
  ⟨_, rfl, rfl, by decide,
    generateQR_expiry sampleRuntime none (qrBodyFor (js "vc-1")) sampleNow (sampleNow + 5) _ rfl rfl
      (by decide)⟩

/-- Counterexample to C5: the issue handler answers 200 with a credential for
empty subject claims, and for claims that use the reserved names id, proof,
issuer and issuanceDate (which it copies into credentialSubject). -/
theorem issue_accepts_empty_and_reserved_claims :
    (issue sampleRuntime emptyClaimsBody sampleNow (js "k3j9x0q2a") sampleNow sampleNow zeroBytes
      sampleNow).status = 200 ∧
    getProp (getProp (issue sampleRuntime emptyClaimsBody sampleNow (js "k3j9x0q2a") sampleNow
      sampleNow zeroBytes sampleNow).body (js "VerifiableCredential")) (js "id")
      = .str (js "vc-1767225600000-k3j9x0q2a") ∧
    hasOwn (issue sampleRuntime emptyClaimsBody sampleNow (js "k3j9x0q2a") sampleNow sampleNow
      zeroBytes sampleNow).body (js "error") = false ∧
    (issue sampleRuntime reservedClaimsBody sampleNow (js "k3j9x0q2a") sampleNow sampleNow zeroBytes
      sampleNow).status = 200 ∧
    getProp (getProp (getProp (issue sampleRuntime reservedClaimsBody sampleNow (js "k3j9x0q2a")
      sampleNow sampleNow zeroBytes sampleNow).body (js "VerifiableCredential"))
      (js "credentialSubject")) (js "proof") = .str (js "forged") ∧
    hasOwn (issue sampleRuntime reservedClaimsBody sampleNow (js "k3j9x0q2a") sampleNow sampleNow
      zeroBytes sampleNow).body (js "error") = false :=
  ⟨rfl, rfl, rfl, rfl, rfl, rfl⟩

/-- C5 as amended: the issue handler validates nothing.  For every request
body, whatever its subject claims (empty, missing, or using reserved names), it
answers 200 with ResponseInfo.status successful, no error property, and a
VerifiableCredential that has a credentialSubject and a proof. -/
theorem issue_never_rejects (rt : Runtime) (body : JVal) (tId : Nat) (rand36 : JStr)
    (tIssued tCreated : Nat) (randomBytes : List Nat) (tTs : Nat) :
    (issue rt body tId rand36 tIssued tCreated randomBytes tTs).status = 200 ∧
    getProp (getProp (issue rt body tId rand36 tIssued tCreated randomBytes tTs).body
      (js "ResponseInfo")) (js "status") = .str (js "successful") ∧
    hasOwn (issue rt body tId rand36 tIssued tCreated randomBytes tTs).body (js "error") = false ∧
    hasOwn (issue rt body tId rand36 tIssued tCreated randomBytes tTs).body
      (js "VerifiableCredential") = true ∧
    hasOwn (getProp (issue rt body tId rand36 tIssued tCreated randomBytes tTs).body
      (js "VerifiableCredential")) (js "credentialSubject") = true ∧
    hasOwn (getProp (issue rt body tId rand36 tIssued tCreated randomBytes tTs).body
      (js "VerifiableCredential")) (js "proof") = true :=
  ⟨rfl, rfl, rfl, rfl, rfl, rfl⟩

/-- Counterexample to C1: the sample credential with its permitType claim
changed from FOOD_VENDOR to TAXI after issuance is verified as valid (isValid
true, status VALID), and the result has no reason property at all. -/
theorem tampered_sample_credential_verifies :
    getProp (getProp sampleCredential (js "credentialSubject")) (js "permitType")
      = .str (js "FOOD_VENDOR") ∧
    getProp (getProp (withSubject sampleCredential (.obj [(js "permitType", .str (js "TAXI"))]))
      (js "credentialSubject")) (js "permitType") = .str (js "TAXI") ∧
    getProp (getProp (verify sampleRuntime (verificationRequestFor .undefined
      (withSubject sampleCredential (.obj [(js "permitType", .str (js "TAXI"))])))
      sampleNow sampleNow).body (js "VerificationResult")) (js "isValid") = .bool true ∧
    getProp (getProp (verify sampleRuntime (verificationRequestFor .undefined
      (withSubject sampleCredential (.obj [(js "permitType", .str (js "TAXI"))])))
      sampleNow sampleNow).body (js "VerificationResult")) (js "status") = .str (js "VALID") ∧
    hasOwn (getProp (verify sampleRuntime (verificationRequestFor .undefined
      (withSubject sampleCredential (.obj [(js "permitType", .str (js "TAXI"))])))
      sampleNow sampleNow).body (js "VerificationResult")) (js "reason") = false :=
  ⟨rfl, rfl, rfl, rfl, rfl⟩

/-- C1 as amended: for every credential the issue handler returns and every
replacement of its credentialSubject, verifying the changed document gives the
same response as verifying the issued one, with isValid true, status VALID, the
issued id as vcId and no reason property: a change of the subject claims is not
detected. -/
theorem verify_ignores_subject_changes (rt : Runtime) (body : JVal) (tId : Nat) (rand36 : JStr)
    (tIssued tCreated : Nat) (randomBytes : List Nat) (tTs : Nat)
    (newSubject requestInfo : JVal) (tTs' tVerified : Nat) :
    let cred := getProp (issue rt body tId rand36 tIssued tCreated randomBytes tTs).body
      (js "VerifiableCredential")
    let changed := withSubject cred newSubject
    let result := getProp (verify rt (verificationRequestFor requestInfo changed) tTs' tVerified).body
      (js "VerificationResult")
    getProp changed (js "credentialSubject") = newSubject ∧
    (verify rt (verificationRequestFor requestInfo changed) tTs' tVerified).status = 200 ∧
    getProp result (js "isValid") = .bool true ∧
    getProp result (js "status") = .str (js "VALID") ∧
    getProp result (js "vcId") = .str (mkVcId tId rand36) ∧
    hasOwn result (js "reason") = false ∧
    result = getProp (verify rt (verificationRequestFor requestInfo cred) tTs' tVerified).body
      (js "VerificationResult") :=
  ⟨rfl, rfl, rfl, rfl, rfl, rfl, rfl⟩

/-- Counterexample to C3: at the clock reading 2026-01-01, later than the end
of the expiryDate 2025-01-15 that the scan endpoint reports, the scan endpoint
and the verify handler both report VALID (isValid true), not EXPIRED. -/
theorem expired_credential_reports_valid :
    endOfExpiryDate < sampleNow ∧
    getProp (getProp (scanVerify sampleRuntime (js "vc-1") sampleNow).body (js "permitDetails"))
      (js "expiryDate") = .str (js "2025-01-15") ∧
    getProp (scanVerify sampleRuntime (js "vc-1") sampleNow).body (js "status")
      = .str (js "VALID") ∧
    getProp (getProp (verify sampleRuntime
      (.obj [(js "VerificationRequest", .obj [(js "vcId", .str (js "vc-1"))])])
      sampleNow sampleNow).body (js "VerificationResult")) (js "status") = .str (js "VALID") ∧
    getProp (getProp (verify sampleRuntime
      (.obj [(js "VerificationRequest", .obj [(js "vcId", .str (js "vc-1"))])])
      sampleNow sampleNow).body (js "VerificationResult")) (js "isValid") = .bool true :=
  ⟨by decide, rfl, rfl, rfl, rfl⟩

/-- C3 as amended: for every credential id and every clock reading, before or
after the end of the validity window, the verify handler and the scan endpoint
report VALID (isValid true) and never EXPIRED; the scan endpoint always reports
the expiryDate 2025-01-15 and only the verifiedAt text follows the clock. -/
theorem verification_ignores_clock (rt : Runtime) (id : JStr) (body : JVal)
    (tTs tVerified tScan : Nat) :
    getProp (getProp (verify rt body tTs tVerified).body (js "VerificationResult")) (js "isValid")
      = .bool true ∧
    getProp (getProp (verify rt body tTs tVerified).body (js "VerificationResult")) (js "status")
      = .str (js "VALID") ∧
    getProp (getProp (verify rt body tTs tVerified).body (js "VerificationResult")) (js "status")
      ≠ .str (js "EXPIRED") ∧
    getProp (getProp (verify rt body tTs tVerified).body (js "VerificationResult")) (js "verifiedAt")
      = .str (rt.toISOString tVerified) ∧
    getProp (scanVerify rt id tScan).body (js "status") = .str (js "VALID") ∧
    getProp (scanVerify rt id tScan).body (js "status") ≠ .str (js "EXPIRED") ∧
    getProp (scanVerify rt id tScan).body (js "verifiedAt") = .str (rt.toISOString tScan) ∧
    getProp (getProp (scanVerify rt id tScan).body (js "permitDetails")) (js "expiryDate")
      = .str (js "2025-01-15") :=
  ⟨rfl, rfl, str_ne_of_ne (by decide), rfl, rfl, str_ne_of_ne (by decide), rfl, rfl⟩

/-- Counterexample to C4, with the default base URL unless said otherwise:
for the empty identifier the QR handler encodes sample-vc-id, so the scan
returns sample-vc-id and not the identifier; the reference built for the
identifier a/b is not matched by the scan route; and with a base URL that ends
in a slash the reference built for vc-1 is not matched either. -/
theorem qr_roundtrip_fails :
    (generateQR sampleRuntime none (qrBodyFor []) sampleNow sampleNow).map
      (fun r => getProp (getProp r.body (js "QRCode")) (js "qrCodeData"))
      = some (.str (js "http://localhost:8080/vc/verify/sample-vc-id")) ∧
    js "http://localhost:8080/vc/verify/sample-vc-id" ≠ qrBaseUrl none ++ js "/" ++ [] ∧
    requestTarget (js "http://localhost:8080/vc/verify/sample-vc-id")
      = some (js "/vc/verify/sample-vc-id") ∧
    routeParam sampleRuntime (js "/vc/verify/sample-vc-id") = some (js "sample-vc-id") ∧
    getProp (scanVerify sampleRuntime (js "sample-vc-id") sampleNow).body (js "vcId")
      ≠ .str [] ∧
    (generateQR sampleRuntime none (qrBodyFor (js "a/b")) sampleNow sampleNow).map
      (fun r => getProp (getProp r.body (js "QRCode")) (js "qrCodeData"))
      = some (.str (js "http://localhost:8080/vc/verify/a/b")) ∧
    requestTarget (js "http://localhost:8080/vc/verify/a/b") = some (js "/vc/verify/a/b") ∧
    routeParam sampleRuntime (js "/vc/verify/a/b") = none ∧
    (generateQR sampleRuntime (some (js "http://localhost:8080/vc/verify/")) (qrBodyFor (js "vc-1"))
      sampleNow sampleNow).map (fun r => getProp (getProp r.body (js "QRCode")) (js "qrCodeData"))
      = some (.str (js "http://localhost:8080/vc/verify//vc-1")) ∧
    requestTarget (js "http://localhost:8080/vc/verify//vc-1") = some (js "/vc/verify//vc-1") ∧
    routeParam sampleRuntime (js "/vc/verify//vc-1") = none :=
  ⟨rfl, by decide, by decide, by decide, str_ne_of_ne (by decide), rfl, by decide, by decide,
    rfl, by decide, by decide⟩

/-- C4 as amended: let the base URL address the scan route, that is, be an
http or https scheme, a non-empty authority and the path /vc/verify in any
letter case.  For every non-empty string identifier that is one plain path
segment (no slash, question mark or hash) and that percent-decoding leaves
unchanged, when the code image is rendered the QR handler answers 200 with
qrCodeData equal to the base URL, a slash and the identifier; the request for
that reference is matched by the route /vc/verify/:vcId with the identifier as
parameter, and the scan response carries it as vcId.  For a falsy vcId the
handler encodes the default: qrCodeData is the base URL, a slash and
sample-vc-id. -/
theorem qr_roundtrip (rt : Runtime) (envBase : Option JStr) (body : JVal) (id img : JStr)
    (scheme authority mount : JStr) (tTs tExpiry tScan : Nat)
    (hid : getProp (getProp body (js "QRRequest")) (js "vcId") = .str id)
    (hne : id ≠ [])
    (hseg : ∀ u ∈ id, u ≠ 47 ∧ u ≠ 63 ∧ u ≠ 35)
    (hdec : rt.decodeURIComponent id = some id)
    (hscheme : scheme = js "http://" ∨ scheme = js "https://")
    (hauthne : authority ≠ [])
    (hauth : ∀ u ∈ authority, u ≠ 47 ∧ u ≠ 63 ∧ u ≠ 35)
    (hmount : mount.map lower = js "/vc/verify")
    (hbase : qrBaseUrl envBase = scheme ++ (authority ++ mount))
    (himg : rt.toDataURL (qrBaseUrl envBase ++ js "/" ++ id) = some img) :
    (∃ r, generateQR rt envBase body tTs tExpiry = some r ∧ r.status = 200 ∧
      getProp (getProp r.body (js "QRCode")) (js "qrCodeData")
        = .str (qrBaseUrl envBase ++ js "/" ++ id)) ∧
    requestTarget (qrBaseUrl envBase ++ js "/" ++ id) = some (mount ++ js "/" ++ id) ∧
    routeParam rt (mount ++ js "/" ++ id) = some id ∧
    resolveScan rt (qrBaseUrl envBase ++ js "/" ++ id) tScan = some (scanVerify rt id tScan) ∧
    getProp (scanVerify rt id tScan).body (js "vcId") = .str id ∧
    (∀ (body' : JVal) (img' : JStr),
      truthy (getProp (getProp body' (js "QRRequest")) (js "vcId")) = false →
      rt.toDataURL (qrBaseUrl envBase ++ js "/" ++ js "sample-vc-id") = some img' →
      ∃ r, generateQR rt envBase body' tTs tExpiry = some r ∧ r.status = 200 ∧
        getProp (getProp r.body (js "QRCode")) (js "qrCodeData")
          = .str (qrBaseUrl envBase ++ js "/" ++ js "sample-vc-id")) := by
  have hurl : verifyUrl rt envBase body = some (qrBaseUrl envBase ++ js "/" ++ id) := by
    have htr : truthy (.str id) = true := by
      cases id with
      | nil => exact absurd rfl hne
      | cons a l => rfl
    simp [verifyUrl, hid, orElse, htr, templateStr]
  have htarget : requestTarget (qrBaseUrl envBase ++ js "/" ++ id)
      = some (mount ++ js "/" ++ id) := by
    have hfrag : ∀ u ∈ js "/" ++ id, u ≠ 35 := by
      intro u hu
      rcases List.mem_append.mp hu with h | h
      · have hu47 : u = 47 := by simpa [js] using h
        omega
      · exact (hseg u h).2.2
    have h := requestTarget_mounted scheme authority mount (js "/" ++ id) hscheme hauthne hauth
      hmount hfrag
    rw [hbase]
    simpa [List.append_assoc] using h
  have hroute : routeParam rt (mount ++ js "/" ++ id) = some id := by
    rw [routeParam_segment rt mount id hmount hne hseg, hdec]
  refine ⟨?_, htarget, hroute, ?_, rfl, ?_⟩
  · simp only [generateQR, hurl, himg]
    exact ⟨_, rfl, rfl, rfl⟩
  · simp only [resolveScan, htarget, hroute]
  · intro body' img' hfalsy himg'
    have hurl' : verifyUrl rt envBase body'
        = some (qrBaseUrl envBase ++ js "/" ++ js "sample-vc-id") := by
      simp [verifyUrl, orElse, hfalsy, templateStr]
    simp only [generateQR, hurl', himg']
    exact ⟨_, rfl, rfl, rfl⟩

/-- Witness of C4: the identifier vc-1 and the empty identifier, with the
default base URL http://localhost:8080/vc/verify. -/
theorem qr_roundtrip_witness :
    (∃ r, generateQR sampleRuntime none (qrBodyFor (js "vc-1")) sampleNow sampleNow = some r ∧
      r.status = 200 ∧
      getProp (getProp r.body (js "QRCode")) (js "qrCodeData")
        = .str (js "http://localhost:8080/vc/verify/vc-1")) ∧
    requestTarget (js "http://localhost:8080/vc/verify/vc-1") = some (js "/vc/verify/vc-1") ∧
    routeParam sampleRuntime (js "/vc/verify/vc-1") = some (js "vc-1") ∧
    resolveScan sampleRuntime (js "http://localhost:8080/vc/verify/vc-1") sampleNow
      = some (scanVerify sampleRuntime (js "vc-1") sampleNow) ∧
    getProp (scanVerify sampleRuntime (js "vc-1") sampleNow).body (js "vcId")
      = .str (js "vc-1") ∧
    (∃ r, generateQR sampleRuntime none (qrBodyFor []) sampleNow sampleNow = some r ∧
      r.status = 200 ∧
      getProp (getProp r.body (js "QRCode")) (js "qrCodeData")
        = .str (js "http://localhost:8080/vc/verify/sample-vc-id")) := by
  have h := qr_roundtrip sampleRuntime none (qrBodyFor (js "vc-1"))
    (js "vc-1") (js "data:image/png;base64,http://localhost:8080/vc/verify/vc-1")
    (js "http://") (js "localhost:8080") (js "/vc/verify")
    sampleNow sampleNow sampleNow rfl (by decide) (by decide) rfl (Or.inl rfl) (by decide)
    (by decide) (by decide) (by decide) rfl
  exact ⟨h.1, h.2.1, h.2.2.1, h.2.2.2.1, h.2.2.2.2.1,
    h.2.2.2.2.2 (qrBodyFor [])
      (js "data:image/png;base64,http://localhost:8080/vc/verify/sample-vc-id") rfl rfl⟩

end DigitServices
